import Mathlib

/-!
# Verification of the RockPaperScissors wagering engine

Shallow embedding of `src/hardhat/contracts/RockPaperScissorsGame.sol`:
the session (game) record, the per-session operations (`createGame`,
`joinGame`, `commitChoice`, `revealChoice`, `handleExpiredGame`,
`cancelGame`, `withdrawBalance`) and the internal resolution helpers
(`determineWinner`, `distributeFunds`).

Modelling conventions:
* Addresses are `Nat`; the zero address is `0`.
* `uint256` amounts and timestamps are `Nat` (amounts here never overflow
  2^256 in any statement we make, and Solidity 0.8 reverts on overflow,
  so `Nat` arithmetic on the reachable values coincides with the EVM).
* `bytes32` commitment values are the inductive `HashVal`: the zero word,
  an injective image `commitH choice nonce player` of
  `keccak256(abi.encodePacked(choice, nonce, player))`, and arbitrary
  other nonzero words `otherH n`.  Injectivity of `commitH` is the
  standard collision-resistance idealisation of keccak256.
* Each external function is a Lean function from the pre-state (the
  session record and, where the source touches it, the balance map) and
  the transaction environment (`block.timestamp` as `now`, `msg.sender`
  as `caller`, `msg.value` as `value`) to `Except GameError post-state`.
  A `.error` result is an EVM revert: the entire transaction is rolled
  back, so the pre-state persists unchanged.
* The pseudo-random seed computed in `_generateRandomSeed` from block
  properties is passed in as an oracle argument `seed`; no claim depends
  on its value.
-/

/-- Solidity `enum Choice { None, Rock, Paper, Scissors }`. -/
inductive Choice where
  | none
  | rock
  | paper
  | scissors
deriving DecidableEq, Repr

/-- Solidity `enum GameResult { Pending, Player1Wins, Player2Wins, Draw, Expired }`. -/
inductive GameResult where
  | pending
  | player1Wins
  | player2Wins
  | draw
  | expired
deriving DecidableEq, Repr

/-- The `bytes32` values as seen by the contract: the zero word, keccak images
of `(choice, nonce, player)` packs (injective by collision-resistance),
and any other nonzero word. -/
inductive HashVal where
  | zeroH
  | commitH (choice : Choice) (nonce : Nat) (player : Nat)
  | otherH (n : Nat)
deriving DecidableEq, Repr

/-- The commitment function
`keccak256(abi.encodePacked(choice, nonce, player))` — the one
function of `generateCommitHash` and `revealChoice`. -/
def keccakCommit (choice : Choice) (nonce : Nat) (player : Nat) : HashVal :=
  HashVal.commitH choice nonce player

/-- The `struct Game` of the contract, field for field. -/
structure Game where
  player1 : Nat
  player2 : Nat
  player1CommitHash : HashVal
  player2CommitHash : HashVal
  player1Choice : Choice
  player2Choice : Choice
  betAmount : Nat
  commitDeadline : Nat
  revealDeadline : Nat
  result : GameResult
  player1Revealed : Bool
  player2Revealed : Bool
  isCompleted : Bool
  fundsDistributed : Bool
  randomSeed : Nat
deriving DecidableEq, Repr

/-- The revert reasons (`require` messages) of the contract. -/
inductive GameError where
  | betAmountTooLow
  | betAmountTooHigh
  | gameDoesNotExist
  | gameAlreadyHasTwoPlayers
  | cannotPlayAgainstYourself
  | mustMatchBetAmount
  | gameNotReady
  | commitPhaseExpired
  | invalidCommitHash
  | alreadyCommitted
  | notAPlayerInThisGame
  | revealPhaseNotStarted
  | revealPhaseExpired
  | invalidChoice
  | invalidReveal
  | alreadyRevealed
  | fundsAlreadyDistributed
  | gameNotExpired
  | gameAlreadyCompleted
  | noBalanceToWithdraw
  | withdrawalFailed
  | onlyGameCreatorCanCancel
  | cannotCancelGameWithTwoPlayers
  | mustWaitBeforeCanceling
deriving DecidableEq, Repr

/-- The `playerBalances` mapping. -/
def Balances : Type := Nat → Nat

/-- Point update of a balance mapping (`playerBalances[a] = v`). -/
def setBal (bal : Balances) (a v : Nat) : Balances :=
  fun x => if x = a then v else bal x

/-- Constant `COMMIT_DURATION = 5 minutes` (seconds). -/
def COMMIT_DURATION : Nat := 300

/-- Constant `REVEAL_DURATION = 5 minutes` (seconds). -/
def REVEAL_DURATION : Nat := 300

/-- Constant `MIN_BET_AMOUNT = 0.001 ether` (wei). -/
def MIN_BET_AMOUNT : Nat := 1000000000000000

/-- Constant `MAX_BET_AMOUNT = 10 ether` (wei). -/
def MAX_BET_AMOUNT : Nat := 10000000000000000000

/-- Function `createGame()`: validates the stake range and allocates the fresh
session record exactly as the contract's struct literal writes it.
(The registry bookkeeping `games[gameId] = …`, `playerGames` push and the
event are outside the per-session record; the returned record is the
allocated session.) -/
def createGame (caller value : Nat) : Except GameError Game :=
  if value < MIN_BET_AMOUNT then .error .betAmountTooLow
  else if value > MAX_BET_AMOUNT then .error .betAmountTooHigh
  else .ok
    { player1 := caller
      player2 := 0
      player1CommitHash := .zeroH
      player2CommitHash := .zeroH
      player1Choice := .none
      player2Choice := .none
      betAmount := value
      commitDeadline := 0
      revealDeadline := 0
      result := .pending
      player1Revealed := false
      player2Revealed := false
      isCompleted := false
      fundsDistributed := false
      randomSeed := 0 }

/-- Function `joinGame(gameId)`: second player joins with a matching stake and the
commit phase opens (`commitDeadline = block.timestamp + COMMIT_DURATION`). -/
def joinGame (g : Game) (caller now value : Nat) : Except GameError Game :=
  if g.player1 = 0 then .error .gameDoesNotExist
  else if g.player2 ≠ 0 then .error .gameAlreadyHasTwoPlayers
  else if caller = g.player1 then .error .cannotPlayAgainstYourself
  else if value ≠ g.betAmount then .error .mustMatchBetAmount
  else .ok { g with player2 := caller, commitDeadline := now + COMMIT_DURATION }

/-- Function `commitChoice(gameId, commitHash)`: records the caller's commitment;
when both commitments are present, starts the reveal phase and stores the
random seed (the keccak of block properties, supplied as oracle `seed`). -/
def commitChoice (g : Game) (now caller : Nat) (commitHash : HashVal) (seed : Nat) :
    Except GameError Game :=
  if ¬(g.player1 ≠ 0 ∧ g.player2 ≠ 0) then .error .gameNotReady
  else if ¬(now ≤ g.commitDeadline) then .error .commitPhaseExpired
  else if commitHash = .zeroH then .error .invalidCommitHash
  else if caller = g.player1 then
    if g.player1CommitHash ≠ .zeroH then .error .alreadyCommitted
    else
      let g1 := { g with player1CommitHash := commitHash }
      if g1.player1CommitHash ≠ .zeroH ∧ g1.player2CommitHash ≠ .zeroH then
        .ok { g1 with revealDeadline := now + REVEAL_DURATION, randomSeed := seed }
      else .ok g1
  else if caller = g.player2 then
    if g.player2CommitHash ≠ .zeroH then .error .alreadyCommitted
    else
      let g1 := { g with player2CommitHash := commitHash }
      if g1.player1CommitHash ≠ .zeroH ∧ g1.player2CommitHash ≠ .zeroH then
        .ok { g1 with revealDeadline := now + REVEAL_DURATION, randomSeed := seed }
      else .ok g1
  else .error .notAPlayerInThisGame

/-- Function `_distributeFunds(gameId)`: credits the balances according to
`game.result` — the two `+=` writes of the draw branch are sequential. -/
def distributeFunds (g : Game) (bal : Balances) : Except GameError (Game × Balances) :=
  if g.fundsDistributed then .error .fundsAlreadyDistributed
  else
    let totalPot := g.betAmount * 2
    let bal' :=
      if g.result = .draw then
        let b1 := setBal bal g.player1 (bal g.player1 + g.betAmount)
        setBal b1 g.player2 (b1 g.player2 + g.betAmount)
      else if g.result = .player1Wins then
        setBal bal g.player1 (bal g.player1 + totalPot)
      else if g.result = .player2Wins then
        setBal bal g.player2 (bal g.player2 + totalPot)
      else bal
    .ok ({ g with fundsDistributed := true }, bal')

/-- Function `_determineWinner(gameId)`: the cyclic-dominance outcome rule, then
`isCompleted = true` and fund distribution. -/
def determineWinner (g : Game) (bal : Balances) : Except GameError (Game × Balances) :=
  let choice1 := g.player1Choice
  let choice2 := g.player2Choice
  let res : GameResult :=
    if choice1 = choice2 then .draw
    else if (choice1 = .rock ∧ choice2 = .scissors) ∨
            (choice1 = .paper ∧ choice2 = .rock) ∨
            (choice1 = .scissors ∧ choice2 = .paper) then .player1Wins
    else .player2Wins
  distributeFunds { g with result := res, isCompleted := true } bal

/-- Function `revealChoice(gameId, choice, nonce)`: checks the reveal window, the
choice, and that `keccak256(choice ‖ nonce ‖ msg.sender)` equals the
caller's stored commitment; records the choice; when both players have
revealed, runs `_determineWinner`. -/
def revealChoice (g : Game) (bal : Balances) (now caller : Nat)
    (choice : Choice) (nonce : Nat) : Except GameError (Game × Balances) :=
  if ¬(g.revealDeadline > 0) then .error .revealPhaseNotStarted
  else if ¬(now ≤ g.revealDeadline) then .error .revealPhaseExpired
  else if choice = .none then .error .invalidChoice
  else
    let expectedHash := keccakCommit choice nonce caller
    if caller = g.player1 then
      if g.player1CommitHash ≠ expectedHash then .error .invalidReveal
      else if g.player1Revealed then .error .alreadyRevealed
      else
        let g1 := { g with player1Choice := choice, player1Revealed := true }
        if g1.player1Revealed ∧ g1.player2Revealed then determineWinner g1 bal
        else .ok (g1, bal)
    else if caller = g.player2 then
      if g.player2CommitHash ≠ expectedHash then .error .invalidReveal
      else if g.player2Revealed then .error .alreadyRevealed
      else
        let g1 := { g with player2Choice := choice, player2Revealed := true }
        if g1.player1Revealed ∧ g1.player2Revealed then determineWinner g1 bal
        else .ok (g1, bal)
    else .error .notAPlayerInThisGame

/-- Function `handleExpiredGame(gameId)`: the timeout sweep — requires the reveal
deadline to be set and past and the game not completed, then forfeits or
refunds and marks the game completed and distributed. -/
def handleExpiredGame (g : Game) (bal : Balances) (now : Nat) :
    Except GameError (Game × Balances) :=
  if ¬(g.revealDeadline > 0 ∧ now > g.revealDeadline) then .error .gameNotExpired
  else if g.isCompleted then .error .gameAlreadyCompleted
  else if g.player1Revealed ∧ ¬g.player2Revealed then
    .ok ({ g with result := .player1Wins, isCompleted := true, fundsDistributed := true },
         setBal bal g.player1 (bal g.player1 + g.betAmount * 2))
  else if ¬g.player1Revealed ∧ g.player2Revealed then
    .ok ({ g with result := .player2Wins, isCompleted := true, fundsDistributed := true },
         setBal bal g.player2 (bal g.player2 + g.betAmount * 2))
  else
    let b1 := setBal bal g.player1 (bal g.player1 + g.betAmount)
    .ok ({ g with result := .expired, isCompleted := true, fundsDistributed := true },
         setBal b1 g.player2 (b1 g.player2 + g.betAmount))

/-- The balance mapping at the moment `withdrawBalance` performs the
outbound call: the caller's balance has already been zeroed.  This is the
state any reentrant callback observes. -/
def withdrawMidBalances (bal : Balances) (caller : Nat) : Balances :=
  setBal bal caller 0

/-- Function `withdrawBalance()`: requires a positive balance, zeroes it, then
performs the outbound transfer of the old amount; `transferOk` is the
oracle for the external call's success, and failure reverts the whole
transaction (the `.error` leaves the pre-state `bal` in force). -/
def withdrawBalance (bal : Balances) (caller : Nat) (transferOk : Bool) :
    Except GameError (Balances × Nat) :=
  let balance := bal caller
  if balance = 0 then .error .noBalanceToWithdraw
  else
    let mid := withdrawMidBalances bal caller
    if transferOk then .ok (mid, balance) else .error .withdrawalFailed

/-- Function `cancelGame(gameId)`: only the creator, only with no second player,
only after `commitDeadline + 1 hours`; refunds the creator's stake and
marks the game completed and `Expired`. -/
def cancelGame (g : Game) (bal : Balances) (caller now : Nat) :
    Except GameError (Game × Balances) :=
  if g.player1 ≠ caller then .error .onlyGameCreatorCanCancel
  else if g.player2 ≠ 0 then .error .cannotCancelGameWithTwoPlayers
  else if ¬(now > g.commitDeadline + 3600) then .error .mustWaitBeforeCanceling
  else
    .ok ({ g with isCompleted := true, result := .expired },
         setBal bal g.player1 (bal g.player1 + g.betAmount))

/-! ## Concrete example states used by the theorems below -/

/-- The all-zero balance mapping. -/
def bal0 : Balances := fun _ => 0

/-- A session created by account 1 with the minimum stake, no second
player yet (the record `createGame` allocates). -/
def cancelableGame : Game :=
  { player1 := 1
    player2 := 0
    player1CommitHash := .zeroH
    player2CommitHash := .zeroH
    player1Choice := .none
    player2Choice := .none
    betAmount := MIN_BET_AMOUNT
    commitDeadline := 0
    revealDeadline := 0
    result := .pending
    player1Revealed := false
    player2Revealed := false
    isCompleted := false
    fundsDistributed := false
    randomSeed := 0 }

/-- The session `cancelableGame` after a successful `cancelGame`. -/
def cancelledGame : Game :=
  { cancelableGame with isCompleted := true, result := .expired }

/-- A session with both players (1 and 2) joined, in the commit phase
(`commitDeadline = 400`), no commitments yet. -/
def commitPhaseGame : Game :=
  { cancelableGame with player2 := 2, commitDeadline := 400 }

/-- A balance table where account 1 holds 200 wei. -/
def balA : Balances := setBal bal0 1 200

/-- A session where both players joined (commit deadline 400) and only
player 1 committed: the commit phase ended with player 2's commitment
absent, so the reveal deadline was never set. -/
def stuckCommitGame : Game :=
  { commitPhaseGame with player1CommitHash := keccakCommit .rock 7 1 }

/-- A session in the open reveal phase: both players committed
(`H(Rock, 7, 1)` and `H(Scissors, 9, 2)`), reveal deadline 700. -/
def revealPhaseGame : Game :=
  { commitPhaseGame with
      player1CommitHash := keccakCommit .rock 7 1
      player2CommitHash := keccakCommit .scissors 9 2
      revealDeadline := 700 }

/-- The balance table after the mutual-silence sweep of
`revealPhaseGame` from the all-zero table: each player got their stake
back. -/
def sweptRefundBal : Balances := setBal (setBal bal0 1 MIN_BET_AMOUNT) 2 MIN_BET_AMOUNT

/-- The session `revealPhaseGame` after the sweep resolved it by mutual
silence. -/
def sweptGame : Game :=
  { revealPhaseGame with result := .expired, isCompleted := true, fundsDistributed := true }

/-- The session `revealPhaseGame` in which only player 1 revealed
(Rock). -/
def oneRevealGame : Game :=
  { revealPhaseGame with player1Choice := .rock, player1Revealed := true }

/-- Modelled from the spec's outcome rule, for comparison with the code:
`Rock` beats `Scissors`, `Paper` beats `Rock`, `Scissors` beats `Paper`. -/
def beats (a b : Choice) : Bool :=
  match a, b with
  | .rock, .scissors => true
  | .paper, .rock => true
  | .scissors, .paper => true
  | _, _ => false

/-- Modelled from the spec's words: identical choices draw, otherwise the
player whose choice `beats` the other's wins. -/
def specOutcome (c1 c2 : Choice) : GameResult :=
  if c1 = c2 then .draw
  else if beats c1 c2 then .player1Wins
  else if beats c2 c1 then .player2Wins
  else .pending

/-- The session `revealPhaseGame` with both players revealed: Rock (player 1)
vs Scissors (player 2). -/
def bothRevealedGame : Game :=
  { revealPhaseGame with
      player1Choice := .rock
      player2Choice := .scissors
      player1Revealed := true
      player2Revealed := true }

/-- A session resolved through the normal both-revealed path (result
recorded, completed, funds distributed) while its reveal window was
still open. -/
def resolvedByRevealGame : Game :=
  { bothRevealedGame with
      result := .player1Wins
      isCompleted := true
      fundsDistributed := true }

/-- The session `revealPhaseGame` in which player 2 simply copied player 1's
commitment hash verbatim. -/
def replayGame : Game :=
  { revealPhaseGame with player2CommitHash := keccakCommit .rock 7 1 }

/-! ## Helper lemmas -/

/-! ## Helper lemmas and concrete example states -/

theorem setBal_same (bal : Balances) (a v : Nat) : setBal bal a v a = v := by
  simp [setBal]

theorem setBal_other (bal : Balances) (a v x : Nat) (h : x ≠ a) :
    setBal bal a v x = bal x := by
  simp [setBal, h]

/-- Lemma: `_distributeFunds` conserves the pot: whenever it succeeds on a
session whose result is Draw, Player1Wins or Player2Wins (the only
results `_determineWinner` produces), the two players' balances together
grow by exactly `2 × stake`. -/
theorem distributeFunds_conserves (g : Game) (bal : Balances) :
    ∀ g' bal' p1 p2 b, distributeFunds g bal = .ok (g', bal') →
      g.player1 = p1 → g.player2 = p2 → g.betAmount = b → p1 ≠ p2 →
      (g.result = .draw ∨ g.result = .player1Wins ∨ g.result = .player2Wins) →
      bal' p1 + bal' p2 = bal p1 + bal p2 + 2 * b := by
  intro g' bal' p1 p2 b hok hp1 hp2 hb hne hres
  subst hp1
  subst hp2
  subst hb
  unfold distributeFunds at hok
  dsimp only at hok
  split_ifs at hok <;>
    first
      | (rw [Except.ok.injEq, Prod.mk.injEq] at hok
         obtain ⟨hg, hb⟩ := hok
         subst hb
         simp [setBal, hne, Ne.symm hne]
         omega)
      | (rcases hres with h | h | h <;> simp_all)

/-- Lemma: `_determineWinner` always succeeds when funds are not yet
distributed (its only failure mode is `_distributeFunds`'s
already-distributed guard). -/
theorem determineWinner_ok (g : Game) (bal : Balances)
    (hfd : g.fundsDistributed = false) :
    ∃ out, determineWinner g bal = .ok out := by
  unfold determineWinner distributeFunds
  dsimp only
  rw [if_neg (by simp [hfd])]
  exact ⟨_, rfl⟩

/-- Lemma: `_distributeFunds` changes only the `fundsDistributed` flag of the
session record. -/
theorem distributeFunds_fst (g : Game) (bal : Balances) :
    ∀ out, distributeFunds g bal = .ok out →
      out.1 = { g with fundsDistributed := true } := by
  intro out hok
  unfold distributeFunds at hok
  dsimp only at hok
  split_ifs at hok <;>
    first
      | (rw [Except.ok.injEq] at hok
         subst hok
         simp_all)
      | cases hok

/-- Lemma: `_determineWinner` preserves the recorded choices and revealed
flags. -/
theorem determineWinner_preserves (g : Game) (bal : Balances) :
    ∀ out, determineWinner g bal = .ok out →
      out.1.player1Choice = g.player1Choice ∧
      out.1.player1Revealed = g.player1Revealed ∧
      out.1.player2Choice = g.player2Choice ∧
      out.1.player2Revealed = g.player2Revealed := by
  intro out hok
  unfold determineWinner at hok
  dsimp only at hok
  rw [distributeFunds_fst _ bal out hok]
  exact ⟨rfl, rfl, rfl, rfl⟩

/-! ## C1 -/

/-- C1 (code bug): a completed (cancelled) session is not immutable.
`cancelGame` checks only the creator, the absence of a second player and
the grace period — it never checks `isCompleted` — so a second
`cancelGame` on an already-cancelled session succeeds and credits the
creator's stake a second time.  Concretely: account 1 creates a session
with the minimum stake (`createGame` yields `cancelableGame`), cancels it
at time 4000 (crediting the stake once), and although the session is now
completed, cancelling again at time 5000 succeeds and leaves the
creator's balance at `2 × stake` — contradicting the claimed
immutability-after-completion and double-crediting the escrow. -/
theorem cancelGame_not_idempotent_bug :
    createGame 1 MIN_BET_AMOUNT = .ok cancelableGame ∧
    cancelGame cancelableGame bal0 1 4000
      = .ok (cancelledGame, setBal bal0 1 MIN_BET_AMOUNT) ∧
    cancelledGame.isCompleted = true ∧
    (∃ out, cancelGame cancelledGame (setBal bal0 1 MIN_BET_AMOUNT) 1 5000 = .ok out ∧
      out.1 = cancelledGame ∧ out.2 1 = 2 * MIN_BET_AMOUNT) :=
  ⟨rfl, rfl, rfl, ⟨_, rfl, rfl, rfl⟩⟩

/-! ## C2 -/

/-- Counterexample to C2 as stated: in `stuckCommitGame` both players
have deposited, the commit phase is over (time 1000 > deadline 400) and
player 2's commitment is absent, yet `handleExpiredGame` does not
succeed — it reverts with "Game not expired", because it requires
`revealDeadline > 0`, which is set only when both commitments arrive.
The stalled counterparty's stake stays locked. -/
theorem handleExpiredGame_commit_stall_counterexample :
    stuckCommitGame.player1 ≠ 0 ∧ stuckCommitGame.player2 ≠ 0 ∧
    stuckCommitGame.commitDeadline < 1000 ∧
    stuckCommitGame.player2CommitHash = HashVal.zeroH ∧
    stuckCommitGame.isCompleted = false ∧
    handleExpiredGame stuckCommitGame bal0 1000 = .error .gameNotExpired :=
  ⟨by decide, by decide, by decide, rfl, rfl, rfl⟩

/-- C2 amended: the timeout sweep is an alternate path into resolution
from the reveal phase only.  If `revealDeadline` was never set — in
particular whenever a commitment is still missing, since `commitChoice`
sets `revealDeadline` only on the commit that completes the pair —
`handleExpiredGame` fails at every time; once the reveal phase has been
opened and has passed on an uncompleted session, it succeeds. -/
theorem handleExpiredGame_only_from_reveal_phase (g : Game) (bal : Balances) (now : Nat) :
    (g.revealDeadline = 0 → handleExpiredGame g bal now = .error .gameNotExpired) ∧
    (0 < g.revealDeadline → g.revealDeadline < now → g.isCompleted = false →
      ∃ out, handleExpiredGame g bal now = .ok out) ∧
    (∀ g' h seed caller, commitChoice g now caller h seed = .ok g' →
      g.revealDeadline = 0 →
      (g'.player1CommitHash = HashVal.zeroH ∨ g'.player2CommitHash = HashVal.zeroH) →
      g'.revealDeadline = 0) := by
  refine ⟨?_, ?_, ?_⟩
  · intro h0
    simp [handleExpiredGame, h0]
  · intro h1 h2 h3
    unfold handleExpiredGame
    split_ifs with hc1 hc2 <;> first | exact ⟨_, rfl⟩ | omega | simp_all
  · intro g' h seed caller hok h0 hmiss
    unfold commitChoice at hok
    dsimp only at hok
    split_ifs at hok <;> rw [Except.ok.injEq] at hok <;> subst hok <;> simp_all

/-- Witness for the amended C2 at concrete inputs: the commit-stalled
session is unsweepable at time 1000, while `revealPhaseGame` (reveal
deadline 700, nobody revealed) is successfully swept at time 1000. -/
theorem handleExpiredGame_only_from_reveal_phase_witness :
    handleExpiredGame stuckCommitGame bal0 1000 = .error .gameNotExpired ∧
    (∃ out, handleExpiredGame revealPhaseGame bal0 1000 = .ok out) :=
  ⟨(handleExpiredGame_only_from_reveal_phase stuckCommitGame bal0 1000).1 rfl,
   (handleExpiredGame_only_from_reveal_phase revealPhaseGame bal0 1000).2.1
      (by decide) (by decide) rfl⟩

/-! ## C3 -/

/-- C3: conservation of the escrowed pot — for every resolution path
(both-revealed resolution through `_determineWinner`/`_distributeFunds`,
and the sweep's forfeiture and mutual-silence refund), the credits issued
to player 1 and player 2 sum to exactly `2 × stake`. -/
theorem resolution_conserves_pot (g : Game) (bal : Balances) (now : Nat)
    (hne : g.player1 ≠ g.player2) :
    (∀ g' bal', determineWinner g bal = .ok (g', bal') →
      bal' g.player1 + bal' g.player2 = bal g.player1 + bal g.player2 + 2 * g.betAmount) ∧
    (∀ g' bal', handleExpiredGame g bal now = .ok (g', bal') →
      bal' g.player1 + bal' g.player2 = bal g.player1 + bal g.player2 + 2 * g.betAmount) := by
  constructor
  · intro g' bal' hok
    unfold determineWinner at hok
    dsimp only at hok
    exact distributeFunds_conserves _ bal g' bal' _ _ _ hok rfl rfl rfl hne
      (by dsimp only; split_ifs <;> simp)
  · intro g' bal' hok
    unfold handleExpiredGame at hok
    split_ifs at hok <;>
      (rw [Except.ok.injEq, Prod.mk.injEq] at hok
       obtain ⟨hg, hb⟩ := hok
       subst hb
       simp [setBal, hne, Ne.symm hne]
       omega)

/-- Witness for C3 at a concrete input: sweeping `revealPhaseGame`
(nobody revealed) at time 1000 credits the two players a combined
`2 × stake`. -/
theorem resolution_conserves_pot_witness :
    sweptRefundBal 1 + sweptRefundBal 2 = bal0 1 + bal0 2 + 2 * MIN_BET_AMOUNT :=
  (resolution_conserves_pot revealPhaseGame bal0 1000 (by decide)).2 _ sweptRefundBal rfl

/-! ## C4 -/

/-- C4 amended: distribution happens at most once.  On a completed
session the sweep never succeeds, so no balance ever changes — once the
reveal deadline is past (always the case after a sweep resolution) it
reverts precisely with "Game already completed", while a sweep attempted
before the deadline (possible only for reveal-resolved sessions) reverts
with "Game not expired"; with `fundsDistributed` set, `_distributeFunds`
(the only crediting step of the both-revealed path) never succeeds
again; and with both players revealed (as after a both-revealed
resolution), no `revealChoice` can trigger `_determineWinner` again. -/
theorem resolution_exactly_once (g : Game) (bal : Balances) (now : Nat)
    (hc : g.isCompleted = true) :
    (∀ out, handleExpiredGame g bal now ≠ .ok out) ∧
    (0 < g.revealDeadline → g.revealDeadline < now →
      handleExpiredGame g bal now = .error .gameAlreadyCompleted) ∧
    (¬(0 < g.revealDeadline ∧ g.revealDeadline < now) →
      handleExpiredGame g bal now = .error .gameNotExpired) ∧
    (g.fundsDistributed = true → ∀ out, distributeFunds g bal ≠ .ok out) ∧
    (g.player1Revealed = true → g.player2Revealed = true →
      ∀ c n caller out, revealChoice g bal now caller c n ≠ .ok out) := by
  refine ⟨?_, ?_, ?_, ?_, ?_⟩
  pick_goal 3
  · intro hpre
    unfold handleExpiredGame
    rw [if_pos]
    intro hcon
    exact hpre ⟨hcon.1, hcon.2⟩
  · intro out hok
    unfold handleExpiredGame at hok
    split_ifs at hok <;> simp_all
  · intro h1 h2
    unfold handleExpiredGame
    split_ifs <;> first | rfl | omega | simp_all
  · intro hfd out hok
    unfold distributeFunds at hok
    split_ifs at hok <;> simp_all
  · intro hr1 hr2 c n caller out hok
    unfold revealChoice at hok
    dsimp only at hok
    split_ifs at hok <;> simp_all

/-- Witness for C4 at a concrete input: sweeping the already-swept
session again at time 2000 reverts with "Game already completed". -/
theorem resolution_exactly_once_witness :
    handleExpiredGame sweptGame bal0 2000 = .error .gameAlreadyCompleted :=
  (resolution_exactly_once sweptGame bal0 2000 rfl).2.1 (by decide) (by decide)

/-- Counterexample to C4 as stated: a session resolved through the
both-revealed path while its reveal window was still open, swept at time
650 (before the reveal deadline 700), fails with "Game not expired" —
not with the claimed "already completed" error.  (Balances still never
change; only the named error differs.) -/
theorem handleExpiredGame_second_error_counterexample :
    resolvedByRevealGame.isCompleted = true ∧
    handleExpiredGame resolvedByRevealGame bal0 650 = .error .gameNotExpired ∧
    GameError.gameNotExpired ≠ GameError.gameAlreadyCompleted :=
  ⟨rfl, rfl, by decide⟩

/-! ## C5 -/

/-- C5: commitment binding.  In an open reveal phase, a participant's
reveal succeeds exactly when `keccak256(choice ‖ nonce ‖ caller)` equals
that participant's stored commitment; a successful reveal records the
choice and sets the revealed flag; any other `(choice, nonce)` pair fails
with "Invalid reveal" (the spec's `ReplayError`) — and in particular the
other participant replaying the exact values behind the first player's
stored hash fails, because the caller's own identity enters the
recomputed hash. -/
theorem revealChoice_commitment_binding (g : Game) (bal : Balances) (now : Nat)
    (choice : Choice) (nonce : Nat)
    (hset : 0 < g.revealDeadline) (hnow : now ≤ g.revealDeadline) (hch : choice ≠ .none)
    (hfd : g.fundsDistributed = false) (hne : g.player1 ≠ g.player2) :
    (g.player1Revealed = false →
      ((∃ out, revealChoice g bal now g.player1 choice nonce = .ok out) ↔
        g.player1CommitHash = keccakCommit choice nonce g.player1)) ∧
    (∀ out, revealChoice g bal now g.player1 choice nonce = .ok out →
      out.1.player1Choice = choice ∧ out.1.player1Revealed = true) ∧
    (g.player1CommitHash ≠ keccakCommit choice nonce g.player1 →
      revealChoice g bal now g.player1 choice nonce = .error .invalidReveal) ∧
    (g.player2Revealed = false →
      ((∃ out, revealChoice g bal now g.player2 choice nonce = .ok out) ↔
        g.player2CommitHash = keccakCommit choice nonce g.player2)) ∧
    (∀ out, revealChoice g bal now g.player2 choice nonce = .ok out →
      out.1.player2Choice = choice ∧ out.1.player2Revealed = true) ∧
    (g.player2CommitHash ≠ keccakCommit choice nonce g.player2 →
      revealChoice g bal now g.player2 choice nonce = .error .invalidReveal) ∧
    (g.player2CommitHash = g.player1CommitHash →
      g.player1CommitHash = keccakCommit choice nonce g.player1 →
      revealChoice g bal now g.player2 choice nonce = .error .invalidReveal) ∧
    (g.player1CommitHash = g.player2CommitHash →
      g.player2CommitHash = keccakCommit choice nonce g.player2 →
      revealChoice g bal now g.player1 choice nonce = .error .invalidReveal) := by
  have herr1 : g.player1CommitHash ≠ keccakCommit choice nonce g.player1 →
      revealChoice g bal now g.player1 choice nonce = .error .invalidReveal := by
    intro hmm
    unfold revealChoice
    dsimp only
    rw [if_neg (not_not_intro hset), if_neg (not_not_intro hnow), if_neg hch,
        if_pos rfl, if_pos hmm]
  have herr2 : g.player2CommitHash ≠ keccakCommit choice nonce g.player2 →
      revealChoice g bal now g.player2 choice nonce = .error .invalidReveal := by
    intro hmm
    unfold revealChoice
    dsimp only
    rw [if_neg (not_not_intro hset), if_neg (not_not_intro hnow), if_neg hch,
        if_neg (Ne.symm hne), if_pos rfl, if_pos hmm]
  refine ⟨?_, ?_, herr1, ?_, ?_, herr2, ?_, ?_⟩
  · intro hrev
    constructor
    · rintro ⟨out, hout⟩
      by_contra hmm
      rw [herr1 hmm] at hout
      cases hout
    · intro hmatch
      unfold revealChoice
      dsimp only
      rw [if_neg (not_not_intro hset), if_neg (not_not_intro hnow), if_neg hch,
          if_pos rfl, if_neg (not_not_intro hmatch), if_neg (by simp [hrev])]
      cases hp2 : g.player2Revealed
      · rw [if_neg (by simp [hp2])]
        exact ⟨_, rfl⟩
      · rw [if_pos (by simp [hp2])]
        exact determineWinner_ok _ bal hfd
  · intro out hout
    unfold revealChoice at hout
    dsimp only at hout
    split_ifs at hout <;>
      first
        | (rw [Except.ok.injEq] at hout
           subst hout
           exact ⟨rfl, rfl⟩)
        | (exact Except.noConfusion hout)
        | (obtain ⟨e1, e2, e3, e4⟩ := determineWinner_preserves _ bal out hout
           exact ⟨e1, e2⟩)
        | simp_all
  · intro hrev
    constructor
    · rintro ⟨out, hout⟩
      by_contra hmm
      rw [herr2 hmm] at hout
      cases hout
    · intro hmatch
      unfold revealChoice
      dsimp only
      rw [if_neg (not_not_intro hset), if_neg (not_not_intro hnow), if_neg hch,
          if_neg (Ne.symm hne), if_pos rfl, if_neg (not_not_intro hmatch),
          if_neg (by simp [hrev])]
      cases hp1 : g.player1Revealed
      · rw [if_neg (by simp [hp1])]
        exact ⟨_, rfl⟩
      · rw [if_pos (by simp [hp1])]
        exact determineWinner_ok _ bal hfd
  · intro out hout
    unfold revealChoice at hout
    dsimp only at hout
    split_ifs at hout <;>
      first
        | (rw [Except.ok.injEq] at hout
           subst hout
           exact ⟨rfl, rfl⟩)
        | (exact Except.noConfusion hout)
        | (obtain ⟨e1, e2, e3, e4⟩ := determineWinner_preserves _ bal out hout
           exact ⟨e3, e4⟩)
        | simp_all
  · intro hcopy hmatch
    refine herr2 ?_
    rw [hcopy, hmatch]
    simp [keccakCommit, hne]
  · intro hcopy hmatch
    refine herr1 ?_
    rw [hcopy, hmatch]
    simp [keccakCommit, Ne.symm hne]

/-- Witness for C5 at concrete inputs: player 1's honest reveal
`(Rock, 7)` succeeds; the wrong pair `(Paper, 7)` fails with "Invalid
reveal"; and player 2 replaying player 1's exact `(Rock, 7)` against the
copied hash also fails, since the recomputed hash binds player 2's own
identity. -/
theorem revealChoice_commitment_binding_witness :
    (∃ out, revealChoice revealPhaseGame bal0 500 revealPhaseGame.player1 .rock 7
        = .ok out) ∧
    revealChoice revealPhaseGame bal0 500 revealPhaseGame.player1 .paper 7
      = .error .invalidReveal ∧
    revealChoice replayGame bal0 500 replayGame.player2 .rock 7
      = .error .invalidReveal :=
  ⟨((revealChoice_commitment_binding revealPhaseGame bal0 500 .rock 7 (by decide) (by decide)
      (by decide) rfl (by decide)).1 rfl).mpr rfl,
   (revealChoice_commitment_binding revealPhaseGame bal0 500 .paper 7 (by decide) (by decide)
      (by decide) rfl (by decide)).2.2.1 (by decide),
   (revealChoice_commitment_binding replayGame bal0 500 .rock 7 (by decide) (by decide)
      (by decide) rfl (by decide)).2.2.2.2.2.2.1 rfl rfl⟩

/-! ## C6 -/

/-- C6: when both players revealed, `_determineWinner` computes exactly
the spec's cyclic-dominance outcome, and `_distributeFunds` pays the
winner `2 × stake` and the loser nothing, or refunds each stake on a
draw. -/
theorem determineWinner_matches_spec (g : Game) (bal : Balances)
    (hfd : g.fundsDistributed = false) (hne : g.player1 ≠ g.player2)
    (h1 : g.player1Choice ≠ .none) (h2 : g.player2Choice ≠ .none) :
    ∃ g' bal', determineWinner g bal = .ok (g', bal') ∧
      g'.result = specOutcome g.player1Choice g.player2Choice ∧
      g'.isCompleted = true ∧ g'.fundsDistributed = true ∧
      (specOutcome g.player1Choice g.player2Choice = .player1Wins →
        bal' g.player1 = bal g.player1 + 2 * g.betAmount ∧
        bal' g.player2 = bal g.player2) ∧
      (specOutcome g.player1Choice g.player2Choice = .player2Wins →
        bal' g.player2 = bal g.player2 + 2 * g.betAmount ∧
        bal' g.player1 = bal g.player1) ∧
      (specOutcome g.player1Choice g.player2Choice = .draw →
        bal' g.player1 = bal g.player1 + g.betAmount ∧
        bal' g.player2 = bal g.player2 + g.betAmount) := by
  cases hc1 : g.player1Choice <;> cases hc2 : g.player2Choice <;>
    simp_all [determineWinner, distributeFunds, specOutcome, beats, setBal,
      Ne.symm hne]
  all_goals
    (refine ⟨_, _, ⟨rfl, rfl⟩, ?_⟩
     simp [setBal, hne, Ne.symm hne]
     try omega)

/-- Witness for C6 at a concrete input: resolving Rock vs Scissors pays
player 1 the whole pot, matching the spec's outcome table. -/
theorem determineWinner_matches_spec_witness :
    ∃ g' bal', determineWinner bothRevealedGame bal0 = .ok (g', bal') ∧
      g'.result = specOutcome bothRevealedGame.player1Choice bothRevealedGame.player2Choice ∧
      g'.isCompleted = true ∧ g'.fundsDistributed = true ∧
      (specOutcome bothRevealedGame.player1Choice bothRevealedGame.player2Choice = .player1Wins →
        bal' bothRevealedGame.player1 = bal0 bothRevealedGame.player1 + 2 * bothRevealedGame.betAmount ∧
        bal' bothRevealedGame.player2 = bal0 bothRevealedGame.player2) ∧
      (specOutcome bothRevealedGame.player1Choice bothRevealedGame.player2Choice = .player2Wins →
        bal' bothRevealedGame.player2 = bal0 bothRevealedGame.player2 + 2 * bothRevealedGame.betAmount ∧
        bal' bothRevealedGame.player1 = bal0 bothRevealedGame.player1) ∧
      (specOutcome bothRevealedGame.player1Choice bothRevealedGame.player2Choice = .draw →
        bal' bothRevealedGame.player1 = bal0 bothRevealedGame.player1 + bothRevealedGame.betAmount ∧
        bal' bothRevealedGame.player2 = bal0 bothRevealedGame.player2 + bothRevealedGame.betAmount) :=
  determineWinner_matches_spec bothRevealedGame bal0 rfl (by decide) (by decide) (by decide)

/-! ## C7 -/

/-- C7: sweep outcomes on an expired, uncompleted session — exactly one
revealer wins the whole pot by forfeiture (the other is credited
nothing); mutual silence refunds each player their own stake with result
`Expired`; in every case the session ends completed with funds
distributed. -/
theorem handleExpiredGame_outcomes (g : Game) (bal : Balances) (now : Nat)
    (hset : 0 < g.revealDeadline) (hpast : g.revealDeadline < now)
    (hnc : g.isCompleted = false) (hne : g.player1 ≠ g.player2) :
    (g.player1Revealed = true → g.player2Revealed = false →
      ∃ g' bal', handleExpiredGame g bal now = .ok (g', bal') ∧
        g'.result = .player1Wins ∧ g'.isCompleted = true ∧ g'.fundsDistributed = true ∧
        bal' g.player1 = bal g.player1 + 2 * g.betAmount ∧
        bal' g.player2 = bal g.player2) ∧
    (g.player1Revealed = false → g.player2Revealed = true →
      ∃ g' bal', handleExpiredGame g bal now = .ok (g', bal') ∧
        g'.result = .player2Wins ∧ g'.isCompleted = true ∧ g'.fundsDistributed = true ∧
        bal' g.player2 = bal g.player2 + 2 * g.betAmount ∧
        bal' g.player1 = bal g.player1) ∧
    (g.player1Revealed = false → g.player2Revealed = false →
      ∃ g' bal', handleExpiredGame g bal now = .ok (g', bal') ∧
        g'.result = .expired ∧ g'.isCompleted = true ∧ g'.fundsDistributed = true ∧
        bal' g.player1 = bal g.player1 + g.betAmount ∧
        bal' g.player2 = bal g.player2 + g.betAmount) := by
  have hcond : ¬¬(g.revealDeadline > 0 ∧ now > g.revealDeadline) :=
    not_not_intro ⟨hset, hpast⟩
  refine ⟨?_, ?_, ?_⟩
  · intro hr1 hr2
    unfold handleExpiredGame
    rw [if_neg hcond, if_neg (by simp [hnc]), if_pos (by simp [hr1, hr2])]
    refine ⟨_, _, rfl, rfl, rfl, rfl, ?_, ?_⟩
    · rw [setBal_same]
      omega
    · exact setBal_other _ _ _ _ (Ne.symm hne)
  · intro hr1 hr2
    unfold handleExpiredGame
    rw [if_neg hcond, if_neg (by simp [hnc]), if_neg (by simp [hr1, hr2]),
        if_pos (by simp [hr1, hr2])]
    refine ⟨_, _, rfl, rfl, rfl, rfl, ?_, ?_⟩
    · rw [setBal_same]
      omega
    · exact setBal_other _ _ _ _ hne
  · intro hr1 hr2
    unfold handleExpiredGame
    rw [if_neg hcond, if_neg (by simp [hnc]), if_neg (by simp [hr1, hr2]),
        if_neg (by simp [hr1, hr2])]
    refine ⟨_, _, rfl, rfl, rfl, rfl, ?_, ?_⟩
    · rw [setBal_other _ _ _ _ hne, setBal_same]
    · rw [setBal_same, setBal_other _ _ _ _ (Ne.symm hne)]

/-- Witness for C7 at concrete inputs: sweeping `oneRevealGame` at time
1000 forfeits the pot to player 1, and sweeping `revealPhaseGame`
(mutual silence) refunds both stakes. -/
theorem handleExpiredGame_outcomes_witness :
    (∃ g' bal', handleExpiredGame oneRevealGame bal0 1000 = .ok (g', bal') ∧
      g'.result = .player1Wins ∧ g'.isCompleted = true ∧ g'.fundsDistributed = true ∧
      bal' oneRevealGame.player1 = bal0 oneRevealGame.player1 + 2 * oneRevealGame.betAmount ∧
      bal' oneRevealGame.player2 = bal0 oneRevealGame.player2) ∧
    (∃ g' bal', handleExpiredGame revealPhaseGame bal0 1000 = .ok (g', bal') ∧
      g'.result = .expired ∧ g'.isCompleted = true ∧ g'.fundsDistributed = true ∧
      bal' revealPhaseGame.player1 = bal0 revealPhaseGame.player1 + revealPhaseGame.betAmount ∧
      bal' revealPhaseGame.player2 = bal0 revealPhaseGame.player2 + revealPhaseGame.betAmount) :=
  ⟨(handleExpiredGame_outcomes oneRevealGame bal0 1000
      (by decide) (by decide) rfl (by decide)).1 rfl rfl,
   (handleExpiredGame_outcomes revealPhaseGame bal0 1000
      (by decide) (by decide) rfl (by decide)).2.2 rfl rfl⟩

/-! ## C8 -/

/-- C8: `withdrawBalance` zeroes the caller's stored balance before the
outbound transfer: the transfer (and any reentrant callback it runs)
observes `withdrawMidBalances`, in which the caller's balance is already
`0`, so a reentrant second `withdrawBalance` fails with "No balance to
withdraw"; a failed transfer reverts the whole call (`.error`, so the
pre-call balances persist); a successful call transfers exactly the
pre-call balance and leaves every other account untouched. -/
theorem withdrawBalance_zero_first (bal : Balances) (caller : Nat)
    (hpos : 0 < bal caller) :
    withdrawBalance bal caller true = .ok (withdrawMidBalances bal caller, bal caller) ∧
    withdrawMidBalances bal caller caller = 0 ∧
    (∀ x, x ≠ caller → withdrawMidBalances bal caller x = bal x) ∧
    withdrawBalance bal caller false = .error .withdrawalFailed ∧
    (∀ tOk, withdrawBalance (withdrawMidBalances bal caller) caller tOk
        = .error .noBalanceToWithdraw) := by
  have hne : bal caller ≠ 0 := Nat.pos_iff_ne_zero.mp hpos
  refine ⟨?_, ?_, ?_, ?_, ?_⟩
  · simp [withdrawBalance, hne]
  · simp [withdrawMidBalances, setBal]
  · intro x hx
    exact setBal_other _ _ _ _ hx
  · simp [withdrawBalance, hne]
  · intro tOk
    simp [withdrawBalance, withdrawMidBalances, setBal]

/-- Witness for C8 at a concrete input: account 1 withdrawing its
balance of 200. -/
theorem withdrawBalance_zero_first_witness :
    withdrawBalance balA 1 true = .ok (withdrawMidBalances balA 1, balA 1) ∧
    withdrawMidBalances balA 1 1 = 0 ∧
    (∀ x, x ≠ 1 → withdrawMidBalances balA 1 x = balA x) ∧
    withdrawBalance balA 1 false = .error .withdrawalFailed ∧
    (∀ tOk, withdrawBalance (withdrawMidBalances balA 1) 1 tOk
        = .error .noBalanceToWithdraw) :=
  withdrawBalance_zero_first balA 1 (by decide)

/-! ## C9 -/

/-- C9: `cancelGame` succeeds exactly when the caller is the creator, no
second player has joined, and the grace hour past `commitDeadline` has
elapsed; on success it credits the creator's stake back to the creator's
balance and marks the session completed with result `Expired`; any call
violating a condition fails with an error, and the revert leaves all
state unchanged. -/
theorem cancelGame_spec (g : Game) (bal : Balances) (caller now : Nat) :
    ((∃ out, cancelGame g bal caller now = .ok out) ↔
      (g.player1 = caller ∧ g.player2 = 0 ∧ now > g.commitDeadline + 3600)) ∧
    (∀ g' bal', cancelGame g bal caller now = .ok (g', bal') →
      g' = { g with isCompleted := true, result := .expired } ∧
      bal' g.player1 = bal g.player1 + g.betAmount ∧
      ∀ x, x ≠ g.player1 → bal' x = bal x) := by
  constructor
  · constructor
    · rintro ⟨out, hout⟩
      unfold cancelGame at hout
      split_ifs at hout with h1 h2 h3
      exact ⟨not_not.mp h1, not_not.mp h2, h3⟩
    · rintro ⟨hp, h2, h3⟩
      unfold cancelGame
      split_ifs <;> first | exact ⟨_, rfl⟩ | simp_all
  · intro g' bal' hok
    unfold cancelGame at hok
    split_ifs at hok with h1 h2 h3
    rw [Except.ok.injEq, Prod.mk.injEq] at hok
    obtain ⟨hg, hb⟩ := hok
    subst hg
    subst hb
    refine ⟨rfl, setBal_same _ _ _, ?_⟩
    intro x hx
    exact setBal_other _ _ _ _ hx

/-- Witness for C9 at a concrete input: creator 1 cancels the unjoined
session `cancelableGame` at time 5000 (past the one-hour grace), getting
the stake credited and the session marked `Expired`. -/
theorem cancelGame_spec_witness :
    cancelledGame = { cancelableGame with isCompleted := true, result := .expired } ∧
    (setBal bal0 1 MIN_BET_AMOUNT) cancelableGame.player1
        = bal0 cancelableGame.player1 + cancelableGame.betAmount ∧
    ∀ x, x ≠ cancelableGame.player1 → (setBal bal0 1 MIN_BET_AMOUNT) x = bal0 x :=
  (cancelGame_spec cancelableGame bal0 1 5000).2 cancelledGame (setBal bal0 1 MIN_BET_AMOUNT) rfl

/-! ## C10 -/

/-- C10: `commitChoice` rejects the all-zero commitment hash — submitting
`bytes32(0)` always fails with an error (the transaction reverts, so no
state changes) — and a successful commit only ever writes the submitted
nonzero hash into a commitment slot, so every stored commitment is
nonzero and the zero hash unambiguously means "not yet committed". -/
theorem commitChoice_rejects_zero_hash (g g' : Game) (now caller seed : Nat) (h : HashVal) :
    (∃ e, commitChoice g now caller HashVal.zeroH seed = .error e) ∧
    (commitChoice g now caller h seed = .ok g' →
      h ≠ HashVal.zeroH ∧
      (g'.player1CommitHash = g.player1CommitHash ∨ g'.player1CommitHash = h) ∧
      (g'.player2CommitHash = g.player2CommitHash ∨ g'.player2CommitHash = h)) := by
  constructor
  · unfold commitChoice
    split_ifs <;> first | exact ⟨_, rfl⟩ | simp_all
  · intro hok
    unfold commitChoice at hok
    dsimp only at hok
    split_ifs at hok <;> (rw [Except.ok.injEq] at hok; subst hok; simp_all)

/-- Witness for C10 at a concrete input: in the joined session
`commitPhaseGame` at time 10, player 1's zero-hash commit errors, and
committing the nonzero hash `otherH 7` stores exactly that hash. -/
theorem commitChoice_rejects_zero_hash_witness :
    (∃ e, commitChoice commitPhaseGame 10 1 HashVal.zeroH 0 = .error e) ∧
    (HashVal.otherH 7 ≠ HashVal.zeroH ∧
      (({ commitPhaseGame with player1CommitHash := .otherH 7 } : Game).player1CommitHash
          = commitPhaseGame.player1CommitHash ∨
        ({ commitPhaseGame with player1CommitHash := .otherH 7 } : Game).player1CommitHash
          = HashVal.otherH 7) ∧
      (({ commitPhaseGame with player1CommitHash := .otherH 7 } : Game).player2CommitHash
          = commitPhaseGame.player2CommitHash ∨
        ({ commitPhaseGame with player1CommitHash := .otherH 7 } : Game).player2CommitHash
          = HashVal.otherH 7)) :=
  ⟨(commitChoice_rejects_zero_hash commitPhaseGame commitPhaseGame 10 1 0 HashVal.zeroH).1,
   (commitChoice_rejects_zero_hash commitPhaseGame
      { commitPhaseGame with player1CommitHash := .otherH 7 } 10 1 0 (HashVal.otherH 7)).2 rfl⟩
